import Mathlib

/-
Verification development for `projects/unit3/build-mcp-server/starter/server.py`.

The script exposes three MCP tools: `analyze_file_changes`, `get_pr_templates`
and `suggest_template`.  We embed them shallowly:

* Each tool returns, in Python, a string produced by `json.dumps(value)` or
  `json.dumps(value, indent=2)`.  We model the returned payload as the JSON
  value together with the `indent` argument of the serialising call
  (`ToolResult`), which is exactly the information present at each call site.
  `json.loads (json.dumps v) = v`, so the internal round-trip in
  `suggest_template` is modelled as the identity on the JSON value.
* The four `git` subprocess invocations are modelled by an environment
  `git : GitCmd → GitOutcome`.  Since `subprocess.run` is invoked WITHOUT
  `check=True`, a nonzero exit status does NOT raise
  `subprocess.CalledProcessError`: the call returns a `CompletedProcess`
  whose `returncode` field records the status.  Consequently the
  `except subprocess.CalledProcessError` handler (server.py line 117) is
  unreachable and has no counterpart in the embedding.  Other exceptions
  (e.g. `OSError` when the `git` binary is missing) are modelled by the
  `raised` outcome, handled by the `except Exception` branch (line 119-120),
  which returns `json.dumps({"error": str(e)})` with no indent.
* `analyze_file_changes` additionally returns the trace of git commands it
  issued, so that short-circuiting behaviour is observable.
* The template store (directory of template files) is modelled as
  `store : String → Option String`; `Path.read_text` on a missing/unreadable
  file raises, modelled by propagating `Except.error`.
* The resolution of `working_dir` (server.py lines 65-73) only chooses the
  directory the git commands run in; no claim depends on it and the git
  environment already abstracts over the directory, so it is not modelled.
* Python string primitives used by the script (`str.strip`, `str.splitlines`,
  `str.lower`, `"\n".join`, list slicing `l[:n]` with an `int` bound) are
  embedded below.  `pyLower` maps chars with `Char.toLower` (ASCII case
  folding): Python's Unicode lowering differs only on non-ASCII characters,
  none of which can lower into the all-ASCII key set of `TYPE_MAPPING`, so
  lookups agree with Python on every input.
-/

/-- JSON values, as produced by the script (strings, ints, arrays, objects). -/
inductive Json where
  | str (s : String)
  | num (n : Int)
  | arr (elems : List Json)
  | obj (fields : List (String × Json))

/-- Field access on a JSON object (`d[key]` / key membership); `none` when the
key is absent or the value is not an object. -/
def lookupField : List (String × Json) → String → Option Json
  | [], _ => none
  | (k, v) :: rest, key => if k = key then some v else lookupField rest key

/-- Lookup of a key in a JSON value. -/
def Json.lookup : Json → String → Option Json
  | .obj fields, key => lookupField fields key
  | _, _ => none

/-- Whether a JSON value is an array. -/
def Json.isArr : Json → Bool
  | .arr _ => true
  | _ => false

/-- The keys of a JSON object, in order (`[]` for non-objects). -/
def Json.keys : Json → List String
  | .obj fields => fields.map Prod.fst
  | _ => []

/-- A tool's return payload: the JSON value passed to `json.dumps`, and the
`indent` argument of that call (`none` for the default compact encoding,
`some 2` for `indent=2`). -/
structure ToolResult where
  value : Json
  indent : Option Nat

/-- ASCII whitespace as stripped by Python's `str.strip()` (space, tab,
newline, carriage return, vertical tab, form feed). -/
def pyIsSpace (c : Char) : Bool :=
  c = ' ' || c = '\t' || c = '\n' || c = '\r' || c = '\x0b' || c = '\x0c'

/-- Python `str.strip()`: drop whitespace from both ends. -/
def pyStrip (s : String) : String :=
  String.mk (((s.data.dropWhile pyIsSpace).reverse.dropWhile pyIsSpace).reverse)

/-- Helper for `pySplitlines`: `acc` holds the current line reversed. -/
def pySplitlinesAux : List Char → List Char → List String
  | [], acc => if acc.isEmpty then [] else [String.mk acc.reverse]
  | '\r' :: '\n' :: rest, acc => String.mk acc.reverse :: pySplitlinesAux rest []
  | '\r' :: rest, acc => String.mk acc.reverse :: pySplitlinesAux rest []
  | '\n' :: rest, acc => String.mk acc.reverse :: pySplitlinesAux rest []
  | c :: rest, acc => pySplitlinesAux rest (c :: acc)

/-- Python `str.splitlines()` for the line breaks git output can contain
(`\n`, `\r`, `\r\n`): no trailing empty line for a trailing terminator,
`""` splits to `[]`. -/
def pySplitlines (s : String) : List String :=
  pySplitlinesAux s.data []

/-- Python list slicing `l[:m]` for an `int` bound `m`: keep the first `m`
elements when `m ≥ 0`, drop the last `-m` elements when `m < 0`. -/
def pySliceTo (m : Int) (l : List α) : List α :=
  if 0 ≤ m then l.take m.toNat else l.take (l.length - (-m).toNat)

/-- Python `str.lower()` (ASCII case folding, see header note). -/
def pyLower (s : String) : String :=
  String.mk (s.data.map Char.toLower)

/-- A single-quote character, used in the `reasoning` f-string. -/
def squote : String :=
  (Char.ofNat 39).toString

/-- `subprocess.CompletedProcess` as used by the script: captured stdout /
stderr (text mode) and the exit status. -/
structure CompletedProcess where
  stdout : String
  stderr : String
  returncode : Int

/-- The four git invocations issued by `analyze_file_changes`
(server.py lines 75, 91, 99, 110), parameterised by the base branch:
`git diff base..HEAD`, `git diff --stat base..HEAD`,
`git diff --name-only base...HEAD`, `git log --oneline base..HEAD`. -/
inductive GitCmd where
  | diff (base : String)
  | diffStat (base : String)
  | diffNameOnly (base : String)
  | logOneline (base : String)
deriving DecidableEq

/-- Outcome of one `subprocess.run` call: a completed process (whatever its
exit status — `check=True` is not passed), or a raised exception with its
`str(e)` message. -/
inductive GitOutcome where
  | completed (r : CompletedProcess)
  | raised (msg : String)

/-- `analyze_file_changes(base_branch, include_diff, max_diff_lines)`
(server.py lines 51-132), over a git environment; also returns the list of
git commands issued, in order.  `working_dir` resolution (lines 65-73) is not
modelled (see header).  In the source, `truncated` (line 89) is bound only
under the guard `len(diff_lines) > max_diff_lines` and read only under the
same guard (line 128), so hoisting its pure computation preserves behaviour. -/
def analyze_file_changes (git : GitCmd → GitOutcome) (base_branch : String)
    (include_diff : Bool) (max_diff_lines : Int) : ToolResult × List GitCmd :=
  match git (.diff base_branch) with
  | .raised msg =>
      (⟨.obj [("error", .str msg)], none⟩, [.diff base_branch])
  | .completed result =>
      let diff_output := result.stdout
      if diff_output = "" then
        (⟨.obj [("message", .str "No changes detected.")], none⟩,
         [.diff base_branch])
      else
        let diff_lines := pySplitlines diff_output
        let truncated :=
          String.intercalate "\n" (pySliceTo max_diff_lines diff_lines)
            ++ "\n... (truncated)"
        match git (.diffStat base_branch) with
        | .raised msg =>
            (⟨.obj [("error", .str msg)], none⟩,
             [.diff base_branch, .diffStat base_branch])
        | .completed stats_result =>
            match git (.diffNameOnly base_branch) with
            | .raised msg =>
                (⟨.obj [("error", .str msg)], none⟩,
                 [.diff base_branch, .diffStat base_branch,
                  .diffNameOnly base_branch])
            | .completed file_status =>
                let changed_files := pySplitlines (pyStrip file_status.stdout)
                match git (.logOneline base_branch) with
                | .raised msg =>
                    (⟨.obj [("error", .str msg)], none⟩,
                     [.diff base_branch, .diffStat base_branch,
                      .diffNameOnly base_branch, .logOneline base_branch])
                | .completed commits_result =>
                    (⟨.obj [
                        ("base_branch", .str base_branch),
                        ("files_changed", .arr (changed_files.map .str)),
                        ("statistics", .str (pyStrip stats_result.stdout)),
                        ("commits", .str (pyStrip commits_result.stdout)),
                        ("diff", .str (if include_diff then pyStrip diff_output
                          else "Use include_diff=True to see the diff.")),
                        ("truncated", .str
                          (if (diff_lines.length : Int) > max_diff_lines
                           then truncated else pyStrip diff_output)),
                        ("total_diff_lines", .num
                          (if include_diff then (diff_lines.length : Int) else 0))
                      ], some 2⟩,
                     [.diff base_branch, .diffStat base_branch,
                      .diffNameOnly base_branch, .logOneline base_branch])

/-- `DEFAULT_TEMPLATES` (server.py lines 22-30): filename → type label, in
declared (insertion) order. -/
def DEFAULT_TEMPLATES : List (String × String) :=
  [("bug.md", "Bug Fix"),
   ("feature.md", "Feature"),
   ("docs.md", "Documentation"),
   ("refactor.md", "Refactor"),
   ("test.md", "Test"),
   ("performance.md", "Performance"),
   ("security.md", "Security")]

/-- `TYPE_MAPPING` (server.py lines 33-47): change type → template filename. -/
def TYPE_MAPPING : List (String × String) :=
  [("bug", "bug.md"),
   ("fix", "bug.md"),
   ("feature", "feature.md"),
   ("enhancement", "feature.md"),
   ("docs", "docs.md"),
   ("documentation", "docs.md"),
   ("refactor", "refactor.md"),
   ("cleanup", "refactor.md"),
   ("test", "test.md"),
   ("testing", "test.md"),
   ("performance", "performance.md"),
   ("optimization", "performance.md"),
   ("security", "security.md")]

/-- Python `dict.get(key)` on an association list with unique keys. -/
def assocGet : List (String × String) → String → Option String
  | [], _ => none
  | (k, v) :: rest, key => if key = k then some v else assocGet rest key

/-- One element of the list built by `get_pr_templates`
(server.py lines 139-143). -/
def templateRecord (filename template_type content : String) : Json :=
  .obj [("filename", .str filename),
        ("type", .str template_type),
        ("content", .str content)]

/-- The list comprehension of `get_pr_templates`: read each template file in
table order; `read_text()` raises on the first missing/unreadable file
(modelled by `store` returning `none`), aborting the whole listing. -/
def readTemplates (store : String → Option String) :
    List (String × String) → Except String (List Json)
  | [] => .ok []
  | (filename, template_type) :: rest =>
      match store filename with
      | none => .error ("read_text failed: " ++ filename)
      | some content =>
          match readTemplates store rest with
          | .error e => .error e
          | .ok recs => .ok (templateRecord filename template_type content :: recs)

/-- `get_pr_templates()` (server.py lines 136-147), over a template store. -/
def get_pr_templates (store : String → Option String) : Except String ToolResult :=
  match readTemplates store DEFAULT_TEMPLATES with
  | .error e => .error e
  | .ok templates => .ok ⟨.arr templates, some 2⟩

/-- The predicate of the generator in `suggest_template`
(server.py line 166): `t["filename"] == template_file`.  Catalog records
always carry a `"filename"` key; for robustness a record without one compares
unequal. -/
def filenameIs (t : Json) (template_file : String) : Bool :=
  match t.lookup "filename" with
  | some (.str s) => s == template_file
  | _ => false

/-- `suggest_template(changes_summary, change_type)` (server.py lines
151-177), over a template store.  `json.loads(templates_response)` recovers
the JSON array built by `get_pr_templates` (round-trip is the identity in the
model); `templates[0]` on an empty catalog would raise `IndexError` in Python
(unreachable: the fixed table has 7 entries), modelled by an error; the
`selected_template["content"]` access always succeeds on catalog records. -/
def suggest_template (store : String → Option String)
    (changes_summary change_type : String) : Except String ToolResult :=
  match get_pr_templates store with
  | .error e => .error e
  | .ok templates_response =>
      let templates : List Json :=
        match templates_response.value with
        | .arr ts => ts
        | _ => []
      let template_file := (assocGet TYPE_MAPPING (pyLower change_type)).getD "feature.md"
      match templates with
      | [] => .error "IndexError: list index out of range"
      | t0 :: _ =>
          let selected_template :=
            (templates.find? (fun t => filenameIs t template_file)).getD t0
          let reasoning :=
            "Based on your analysis: " ++ squote ++ changes_summary ++ squote
              ++ ", this appears to be a " ++ change_type ++ " change."
          let template_content := (selected_template.lookup "content").getD (.str "")
          .ok ⟨.obj [
              ("recommended_template", selected_template),
              ("reasoning", .str reasoning),
              ("template_content", template_content),
              ("usage_hint", .str "Claude can help you fill out this template based on the specific changes in your PR.")
            ], some 2⟩

/-- Concrete git environment: `git diff base..HEAD` fails (exit 128, empty
stdout, diagnostic on stderr), as with an unresolvable base branch. -/
def gitEnvDiffFails : GitCmd → GitOutcome := fun c =>
  match c with
  | .diff _ => .completed ⟨"", "fatal: bad revision", 128⟩
  | _ => .completed ⟨"", "", 0⟩

/-- Concrete git environment: the diff succeeds but the `--stat` query fails
(exit 128, empty stdout); the remaining queries succeed. -/
def gitEnvStatFails : GitCmd → GitOutcome := fun c =>
  match c with
  | .diff _ => .completed ⟨"diff --git a/f.txt b/f.txt\n+hello\n", "", 0⟩
  | .diffStat _ => .completed ⟨"", "fatal: bad revision", 128⟩
  | .diffNameOnly _ => .completed ⟨"f.txt\n", "", 0⟩
  | .logOneline _ => .completed ⟨"abc1234 add hello\n", "", 0⟩

/-- Concrete git environment: all four queries succeed, one-file diff. -/
def gitEnvOk : GitCmd → GitOutcome := fun c =>
  match c with
  | .diff _ => .completed ⟨"diff --git a/f.txt b/f.txt\n+hello\n", "", 0⟩
  | .diffStat _ => .completed ⟨" f.txt | 1 +\n 1 file changed, 1 insertion(+)\n", "", 0⟩
  | .diffNameOnly _ => .completed ⟨"f.txt\n", "", 0⟩
  | .logOneline _ => .completed ⟨"abc1234 add hello\n", "", 0⟩

/-- Concrete git environment: all queries succeed, empty diff output. -/
def gitEnvEmpty : GitCmd → GitOutcome := fun _ =>
  .completed ⟨"", "", 0⟩

/-- Concrete git environment: two commits in the log range. -/
def gitEnvTwoCommits : GitCmd → GitOutcome := fun c =>
  match c with
  | .diff _ => .completed ⟨"diff --git a/a.txt b/a.txt\n+x\ndiff --git a/b.txt b/b.txt\n+y\n", "", 0⟩
  | .diffStat _ => .completed ⟨" 2 files changed, 2 insertions(+)\n", "", 0⟩
  | .diffNameOnly _ => .completed ⟨"a.txt\nb.txt\n", "", 0⟩
  | .logOneline _ => .completed ⟨"abc1234 second commit\ndef5678 first commit\n", "", 0⟩

/-- Concrete template store with distinct content per file. -/
def store0 : String → Option String := fun filename =>
  some ("# Template " ++ filename)

/-- The catalog built by `get_pr_templates` from the seven stored contents,
in the declared order of `DEFAULT_TEMPLATES`. -/
def catalogRecords (cB cF cD cR cT cP cS : String) : List Json :=
  [templateRecord "bug.md" "Bug Fix" cB,
   templateRecord "feature.md" "Feature" cF,
   templateRecord "docs.md" "Documentation" cD,
   templateRecord "refactor.md" "Refactor" cR,
   templateRecord "test.md" "Test" cT,
   templateRecord "performance.md" "Performance" cP,
   templateRecord "security.md" "Security" cS]

/-- Whether a tool result is a compactly-serialised (`indent` absent)
single-key `error` or `message` object. -/
def compactSingleton (r : ToolResult) : Bool :=
  match r with
  | ⟨.obj [("error", _)], none⟩ => true
  | ⟨.obj [("message", _)], none⟩ => true
  | _ => false

/-- The filename of the recommended template inside a `suggest_template`
result. -/
def recommendedFilename (r : Except String ToolResult) : Option Json :=
  match r with
  | .error _ => none
  | .ok res =>
      (res.value.lookup "recommended_template").bind (fun t => t.lookup "filename")

/-- Taking a prefix of nonnegative integer length is `List.take`. -/
theorem pySliceTo_natCast (M : Nat) (l : List α) :
    pySliceTo (M : Int) l = l.take M := by
  simp [pySliceTo]

/-- When all four git queries complete and the diff output is nonempty,
`analyze_file_changes` issues all four queries and produces the full report
built from their outputs. -/
theorem analyze_report_eq (git : GitCmd → GitOutcome) (b : String)
    (incl : Bool) (M : Int) (d st nm lg : CompletedProcess)
    (hd : git (.diff b) = .completed d)
    (hst : git (.diffStat b) = .completed st)
    (hnm : git (.diffNameOnly b) = .completed nm)
    (hlg : git (.logOneline b) = .completed lg)
    (hne : d.stdout ≠ "") :
    analyze_file_changes git b incl M
      = (⟨.obj [
            ("base_branch", .str b),
            ("files_changed", .arr ((pySplitlines (pyStrip nm.stdout)).map .str)),
            ("statistics", .str (pyStrip st.stdout)),
            ("commits", .str (pyStrip lg.stdout)),
            ("diff", .str (if incl then pyStrip d.stdout
              else "Use include_diff=True to see the diff.")),
            ("truncated", .str
              (if ((pySplitlines d.stdout).length : Int) > M
               then String.intercalate "\n" (pySliceTo M (pySplitlines d.stdout))
                 ++ "\n... (truncated)"
               else pyStrip d.stdout)),
            ("total_diff_lines", .num
              (if incl then ((pySplitlines d.stdout).length : Int) else 0))
          ], some 2⟩,
         [.diff b, .diffStat b, .diffNameOnly b, .logOneline b]) := by
  simp only [analyze_file_changes, hd, hst, hnm, hlg]
  simp [hne]

/-- The seven-file catalog read performed by `get_pr_templates`, on a store
holding the given contents. -/
theorem readTemplates_eq (store : String → Option String)
    (cB cF cD cR cT cP cS : String)
    (h1 : store "bug.md" = some cB) (h2 : store "feature.md" = some cF)
    (h3 : store "docs.md" = some cD) (h4 : store "refactor.md" = some cR)
    (h5 : store "test.md" = some cT) (h6 : store "performance.md" = some cP)
    (h7 : store "security.md" = some cS) :
    readTemplates store DEFAULT_TEMPLATES
      = .ok (catalogRecords cB cF cD cR cT cP cS) := by
  simp [DEFAULT_TEMPLATES, readTemplates, catalogRecords,
        h1, h2, h3, h4, h5, h6, h7]

/-- C2: if the first diff query produces empty output, `analyze_file_changes`
returns exactly the object `{message: "No changes detected."}` (serialised
without indent) and issues none of the remaining three git queries. -/
theorem analyze_empty_diff_short_circuit (git : GitCmd → GitOutcome)
    (b : String) (incl : Bool) (M : Int) (r : CompletedProcess)
    (hd : git (.diff b) = .completed r) (hempty : r.stdout = "") :
    analyze_file_changes git b incl M
      = (⟨.obj [("message", .str "No changes detected.")], none⟩,
         [.diff b]) := by
  simp only [analyze_file_changes, hd]
  simp [hempty]

/-- Witness for C2: a concrete environment whose diff output is empty. -/
theorem analyze_empty_diff_short_circuit_witness :
    gitEnvEmpty (.diff "main") = .completed ⟨"", "", 0⟩
    ∧ analyze_file_changes gitEnvEmpty "main" true 500
      = (⟨.obj [("message", .str "No changes detected.")], none⟩,
         [.diff "main"]) :=
  ⟨rfl, analyze_empty_diff_short_circuit gitEnvEmpty "main" true 500
      ⟨"", "", 0⟩ rfl rfl⟩

/-- C1 (code bug): `subprocess.run` is invoked without `check=True`, so a git
command exiting with nonzero status never raises `CalledProcessError` and the
`{error: ...}` path is not taken.  When `git diff` fails with exit 128 and
empty stdout, the tool returns the `{message: "No changes detected."}` object;
when only the `--stat` query fails, the tool returns a full report with an
empty `statistics` field and no `error` key — a partial report. -/
theorem analyze_nonzero_exit_not_error :
    gitEnvDiffFails (.diff "nonexistent")
      = .completed ⟨"", "fatal: bad revision", 128⟩
    ∧ (analyze_file_changes gitEnvDiffFails "nonexistent" true 500).1
      = ⟨.obj [("message", .str "No changes detected.")], none⟩
    ∧ gitEnvStatFails (.diffStat "main")
      = .completed ⟨"", "fatal: bad revision", 128⟩
    ∧ (analyze_file_changes gitEnvStatFails "main" true 500).1.value.lookup "error"
      = none
    ∧ (analyze_file_changes gitEnvStatFails "main" true 500).1.value.lookup "statistics"
      = some (.str "") :=
  ⟨rfl, rfl, rfl, rfl, rfl⟩

/-- C5: `total_diff_lines` is `0` whenever `include_diff=false`, and the full
diff's line count when `include_diff=true`. -/
theorem analyze_total_diff_lines_spec (git : GitCmd → GitOutcome) (b : String)
    (M : Int) (d st nm lg : CompletedProcess)
    (hd : git (.diff b) = .completed d)
    (hst : git (.diffStat b) = .completed st)
    (hnm : git (.diffNameOnly b) = .completed nm)
    (hlg : git (.logOneline b) = .completed lg)
    (hne : d.stdout ≠ "") :
    (analyze_file_changes git b false M).1.value.lookup "total_diff_lines"
      = some (.num 0)
    ∧ (analyze_file_changes git b true M).1.value.lookup "total_diff_lines"
      = some (.num ((pySplitlines d.stdout).length : Int)) := by
  rw [analyze_report_eq git b false M d st nm lg hd hst hnm hlg hne,
      analyze_report_eq git b true M d st nm lg hd hst hnm hlg hne]
  constructor <;> simp [Json.lookup, lookupField]

/-- Witness for C5: a two-line diff reports 0 lines with `include_diff=false`
and its line count with `include_diff=true`. -/
theorem analyze_total_diff_lines_spec_witness :
    (pySplitlines "diff --git a/f.txt b/f.txt\n+hello\n").length = 2
    ∧ (analyze_file_changes gitEnvOk "main" false 500).1.value.lookup "total_diff_lines"
      = some (.num 0)
    ∧ (analyze_file_changes gitEnvOk "main" true 500).1.value.lookup "total_diff_lines"
      = some (.num ((pySplitlines "diff --git a/f.txt b/f.txt\n+hello\n").length : Int)) :=
  ⟨by decide,
   (analyze_total_diff_lines_spec gitEnvOk "main" 500
      ⟨"diff --git a/f.txt b/f.txt\n+hello\n", "", 0⟩
      ⟨" f.txt | 1 +\n 1 file changed, 1 insertion(+)\n", "", 0⟩
      ⟨"f.txt\n", "", 0⟩ ⟨"abc1234 add hello\n", "", 0⟩
      rfl rfl rfl rfl (by decide)).1,
   (analyze_total_diff_lines_spec gitEnvOk "main" 500
      ⟨"diff --git a/f.txt b/f.txt\n+hello\n", "", 0⟩
      ⟨" f.txt | 1 +\n 1 file changed, 1 insertion(+)\n", "", 0⟩
      ⟨"f.txt\n", "", 0⟩ ⟨"abc1234 add hello\n", "", 0⟩
      rfl rfl rfl rfl (by decide)).2⟩

/-- C3: for a diff of `L` lines and `max_diff_lines = M`, if `L > M` the
`truncated` field is exactly the first `M` diff lines joined by newlines
followed by the truncation marker; if `L ≤ M` it is byte-identical to the
full diff content carried in the report (the stripped diff, i.e. the `diff`
field when `include_diff=true`). -/
theorem analyze_truncation_spec (git : GitCmd → GitOutcome) (b : String)
    (incl : Bool) (M : Nat) (d st nm lg : CompletedProcess)
    (hd : git (.diff b) = .completed d)
    (hst : git (.diffStat b) = .completed st)
    (hnm : git (.diffNameOnly b) = .completed nm)
    (hlg : git (.logOneline b) = .completed lg)
    (hne : d.stdout ≠ "") :
    ((pySplitlines d.stdout).length > M →
      (analyze_file_changes git b incl (M : Int)).1.value.lookup "truncated"
        = some (.str (String.intercalate "\n" ((pySplitlines d.stdout).take M)
            ++ "\n... (truncated)")))
    ∧ ((pySplitlines d.stdout).length ≤ M →
      (analyze_file_changes git b incl (M : Int)).1.value.lookup "truncated"
        = some (.str (pyStrip d.stdout))
      ∧ (analyze_file_changes git b true (M : Int)).1.value.lookup "truncated"
        = (analyze_file_changes git b true (M : Int)).1.value.lookup "diff") := by
  rw [analyze_report_eq git b incl (M : Int) d st nm lg hd hst hnm hlg hne,
      analyze_report_eq git b true (M : Int) d st nm lg hd hst hnm hlg hne]
  constructor
  · intro hL
    have hL2 : ((pySplitlines d.stdout).length : Int) > (M : Int) := by
      exact_mod_cast hL
    simp [Json.lookup, lookupField, hL2, pySliceTo_natCast]
  · intro hL
    have hL2 : ¬ ((pySplitlines d.stdout).length : Int) > (M : Int) := by
      omega
    simp [Json.lookup, lookupField, hL2]

/-- Witness for C3: with `max_diff_lines = 1` a two-line diff is truncated to
its first line plus the marker; with `max_diff_lines = 500` the `truncated`
field equals the stripped diff and the `diff` field. -/
theorem analyze_truncation_spec_witness :
    (pySplitlines "diff --git a/f.txt b/f.txt\n+hello\n").length > 1
    ∧ (analyze_file_changes gitEnvOk "main" true ((1 : Nat) : Int)).1.value.lookup "truncated"
      = some (.str (String.intercalate "\n"
          ((pySplitlines "diff --git a/f.txt b/f.txt\n+hello\n").take 1)
          ++ "\n... (truncated)"))
    ∧ (pySplitlines "diff --git a/f.txt b/f.txt\n+hello\n").length ≤ 500
    ∧ (analyze_file_changes gitEnvOk "main" true ((500 : Nat) : Int)).1.value.lookup "truncated"
      = some (.str (pyStrip "diff --git a/f.txt b/f.txt\n+hello\n")) :=
  ⟨by decide,
   (analyze_truncation_spec gitEnvOk "main" true 1
      ⟨"diff --git a/f.txt b/f.txt\n+hello\n", "", 0⟩
      ⟨" f.txt | 1 +\n 1 file changed, 1 insertion(+)\n", "", 0⟩
      ⟨"f.txt\n", "", 0⟩ ⟨"abc1234 add hello\n", "", 0⟩
      rfl rfl rfl rfl (by decide)).1 (by decide),
   by decide,
   ((analyze_truncation_spec gitEnvOk "main" true 500
      ⟨"diff --git a/f.txt b/f.txt\n+hello\n", "", 0⟩
      ⟨" f.txt | 1 +\n 1 file changed, 1 insertion(+)\n", "", 0⟩
      ⟨"f.txt\n", "", 0⟩ ⟨"abc1234 add hello\n", "", 0⟩
      rfl rfl rfl rfl (by decide)).2 (by decide)).1⟩

/-- C9 (counterexample): at a concrete input whose log range contains two
commits, the `commits` field of the report is the single flat string
`"abc1234 second commit\ndef5678 first commit"` — not a sequence with one
element per commit. -/
theorem commits_field_is_flat_string_cex :
    (analyze_file_changes gitEnvTwoCommits "main" true 500).1.value.lookup "commits"
      = some (.str "abc1234 second commit\ndef5678 first commit")
    ∧ ((analyze_file_changes gitEnvTwoCommits "main" true 500).1.value.lookup "commits").map Json.isArr
      = some false :=
  ⟨rfl, rfl⟩

/-- C9 (amended): in every report, `files_changed` is an ordered sequence of
path strings (the stripped name-only output split into lines), while
`commits` is a single flat string — the stripped one-line log output, with
one commit per line — not a JSON sequence. -/
theorem analyze_files_and_commits_shape (git : GitCmd → GitOutcome)
    (b : String) (incl : Bool) (M : Int) (d st nm lg : CompletedProcess)
    (hd : git (.diff b) = .completed d)
    (hst : git (.diffStat b) = .completed st)
    (hnm : git (.diffNameOnly b) = .completed nm)
    (hlg : git (.logOneline b) = .completed lg)
    (hne : d.stdout ≠ "") :
    (analyze_file_changes git b incl M).1.value.lookup "files_changed"
      = some (.arr ((pySplitlines (pyStrip nm.stdout)).map .str))
    ∧ (analyze_file_changes git b incl M).1.value.lookup "commits"
      = some (.str (pyStrip lg.stdout)) := by
  rw [analyze_report_eq git b incl M d st nm lg hd hst hnm hlg hne]
  constructor <;> simp [Json.lookup, lookupField]

/-- Witness for the amended C9, on the two-commit environment. -/
theorem analyze_files_and_commits_shape_witness :
    (analyze_file_changes gitEnvTwoCommits "main" true 500).1.value.lookup "files_changed"
      = some (.arr ((pySplitlines (pyStrip "a.txt\nb.txt\n")).map .str))
    ∧ (analyze_file_changes gitEnvTwoCommits "main" true 500).1.value.lookup "commits"
      = some (.str (pyStrip "abc1234 second commit\ndef5678 first commit\n")) :=
  analyze_files_and_commits_shape gitEnvTwoCommits "main" true 500
    ⟨"diff --git a/a.txt b/a.txt\n+x\ndiff --git a/b.txt b/b.txt\n+y\n", "", 0⟩
    ⟨" 2 files changed, 2 insertions(+)\n", "", 0⟩
    ⟨"a.txt\nb.txt\n", "", 0⟩
    ⟨"abc1234 second commit\ndef5678 first commit\n", "", 0⟩
    rfl rfl rfl rfl (by decide)

/-- C10: two invocations differing only in `include_diff` agree on every
field other than `diff` and `total_diff_lines` (in particular on
`truncated`, which carries the diff content even when `include_diff=false`),
and issue the same git queries. -/
theorem include_diff_hides_only_diff_fields (git : GitCmd → GitOutcome)
    (b : String) (M : Int) (k : String)
    (hk1 : k ≠ "diff") (hk2 : k ≠ "total_diff_lines") :
    (analyze_file_changes git b true M).1.value.lookup k
      = (analyze_file_changes git b false M).1.value.lookup k
    ∧ (analyze_file_changes git b true M).2
      = (analyze_file_changes git b false M).2 := by
  have h1 : ¬ ("diff" = k) := fun h => hk1 h.symm
  have h2 : ¬ ("total_diff_lines" = k) := fun h => hk2 h.symm
  cases hg : git (.diff b) with
  | raised msg => simp [analyze_file_changes, hg]
  | completed r =>
    by_cases he : r.stdout = ""
    · simp [analyze_file_changes, hg, he]
    · cases hst : git (.diffStat b) with
      | raised m => simp [analyze_file_changes, hg, he, hst]
      | completed st =>
        cases hnm : git (.diffNameOnly b) with
        | raised m => simp [analyze_file_changes, hg, he, hst, hnm]
        | completed nm =>
          cases hlg : git (.logOneline b) with
          | raised m => simp [analyze_file_changes, hg, he, hst, hnm, hlg]
          | completed lg =>
            simp only [analyze_file_changes, hg, he, hst, hnm, hlg]
            refine ⟨?_, rfl⟩
            simp [Json.lookup, lookupField, h1, h2, he]

/-- Witness for C10: the `truncated` field is unchanged by `include_diff`. -/
theorem include_diff_hides_only_diff_fields_witness :
    ("truncated" : String) ≠ "diff"
    ∧ ("truncated" : String) ≠ "total_diff_lines"
    ∧ ((analyze_file_changes gitEnvOk "main" true 500).1.value.lookup "truncated"
        = (analyze_file_changes gitEnvOk "main" false 500).1.value.lookup "truncated"
      ∧ (analyze_file_changes gitEnvOk "main" true 500).2
        = (analyze_file_changes gitEnvOk "main" false 500).2) :=
  ⟨by decide, by decide,
   include_diff_hides_only_diff_fields gitEnvOk "main" 500 "truncated"
     (by decide) (by decide)⟩

/-- C4 (counterexample): the no-changes result of `analyze_file_changes` is
serialised by `json.dumps` with the default compact encoding (server.py
line 84), not with `indent=2`, so not every tool value is pretty-printed
with 2-space indentation. -/
theorem tool_output_two_space_indent_cex :
    (analyze_file_changes gitEnvDiffFails "nonexistent" true 500).1.value
      = .obj [("message", .str "No changes detected.")]
    ∧ (analyze_file_changes gitEnvDiffFails "nonexistent" true 500).1.indent
      ≠ some 2 :=
  ⟨rfl, by decide⟩

/-- C4 (amended): every result of `analyze_file_changes` is either the
seven-field report, pretty-printed with 2-space indentation, or a single-key
`error` / `message` object serialised compactly without indent
(`compactSingleton` requires `indent = none`); the two cases are mutually
exclusive, so the error and message branches are never pretty-printed.
Every result of `get_pr_templates` and `suggest_template` is pretty-printed
with 2-space indentation. -/
theorem tool_output_encoding (git : GitCmd → GitOutcome) (b : String)
    (incl : Bool) (M : Int) (store : String → Option String)
    (cB cF cD cR cT cP cS : String)
    (h1 : store "bug.md" = some cB) (h2 : store "feature.md" = some cF)
    (h3 : store "docs.md" = some cD) (h4 : store "refactor.md" = some cR)
    (h5 : store "test.md" = some cT) (h6 : store "performance.md" = some cP)
    (h7 : store "security.md" = some cS)
    (s ct : String) :
    (((analyze_file_changes git b incl M).1.indent = some 2
        ∧ (analyze_file_changes git b incl M).1.value.keys
          = ["base_branch", "files_changed", "statistics", "commits", "diff",
             "truncated", "total_diff_lines"])
      ∨ compactSingleton (analyze_file_changes git b incl M).1 = true)
    ∧ (get_pr_templates store).map ToolResult.indent = .ok (some 2)
    ∧ (suggest_template store s ct).map ToolResult.indent = .ok (some 2) := by
  have hcat : get_pr_templates store
      = .ok ⟨.arr (catalogRecords cB cF cD cR cT cP cS), some 2⟩ := by
    simp [get_pr_templates,
          readTemplates_eq store cB cF cD cR cT cP cS h1 h2 h3 h4 h5 h6 h7]
  refine ⟨?_, ?_, ?_⟩
  · cases hg : git (.diff b) with
    | raised msg =>
        right
        simp [analyze_file_changes, hg, compactSingleton]
    | completed r =>
        by_cases he : r.stdout = ""
        · right
          simp [analyze_file_changes, hg, he, compactSingleton]
        · cases hst : git (.diffStat b) with
          | raised m =>
              right
              simp [analyze_file_changes, hg, he, hst, compactSingleton]
          | completed st =>
              cases hnm : git (.diffNameOnly b) with
              | raised m =>
                  right
                  simp [analyze_file_changes, hg, he, hst, hnm, compactSingleton]
              | completed nm =>
                  cases hlg : git (.logOneline b) with
                  | raised m =>
                      right
                      simp [analyze_file_changes, hg, he, hst, hnm, hlg,
                            compactSingleton]
                  | completed lg =>
                      left
                      simp [analyze_file_changes, hg, he, hst, hnm, hlg, Json.keys]
  · simp [hcat, Except.map]
  · simp [suggest_template, hcat, catalogRecords, Except.map]

/-- Witness for the amended C4, on concrete environments. -/
theorem tool_output_encoding_witness :
    (((analyze_file_changes gitEnvOk "main" true 500).1.indent = some 2
        ∧ (analyze_file_changes gitEnvOk "main" true 500).1.value.keys
          = ["base_branch", "files_changed", "statistics", "commits", "diff",
             "truncated", "total_diff_lines"])
      ∨ compactSingleton (analyze_file_changes gitEnvOk "main" true 500).1 = true)
    ∧ (get_pr_templates store0).map ToolResult.indent = .ok (some 2)
    ∧ (suggest_template store0 "adds a hello line" "fix").map ToolResult.indent
      = .ok (some 2) :=
  tool_output_encoding gitEnvOk "main" true 500 store0
    "# Template bug.md" "# Template feature.md" "# Template docs.md"
    "# Template refactor.md" "# Template test.md" "# Template performance.md"
    "# Template security.md" rfl rfl rfl rfl rfl rfl rfl
    "adds a hello line" "fix"

/-- C6: `get_pr_templates` returns exactly one record per filename of the
fixed table, in the table's declared order, each `content` field equal to the
content held by the template store for that filename at call time. -/
theorem get_pr_templates_spec (store : String → Option String)
    (cB cF cD cR cT cP cS : String)
    (h1 : store "bug.md" = some cB) (h2 : store "feature.md" = some cF)
    (h3 : store "docs.md" = some cD) (h4 : store "refactor.md" = some cR)
    (h5 : store "test.md" = some cT) (h6 : store "performance.md" = some cP)
    (h7 : store "security.md" = some cS) :
    get_pr_templates store
      = .ok ⟨.arr (catalogRecords cB cF cD cR cT cP cS), some 2⟩ := by
  simp [get_pr_templates,
        readTemplates_eq store cB cF cD cR cT cP cS h1 h2 h3 h4 h5 h6 h7]

/-- Witness for C6, on a concrete store. -/
theorem get_pr_templates_spec_witness :
    store0 "bug.md" = some "# Template bug.md"
    ∧ get_pr_templates store0
      = .ok ⟨.arr (catalogRecords "# Template bug.md" "# Template feature.md"
          "# Template docs.md" "# Template refactor.md" "# Template test.md"
          "# Template performance.md" "# Template security.md"), some 2⟩ :=
  ⟨rfl,
   get_pr_templates_spec store0
     "# Template bug.md" "# Template feature.md" "# Template docs.md"
     "# Template refactor.md" "# Template test.md" "# Template performance.md"
     "# Template security.md" rfl rfl rfl rfl rfl rfl rfl⟩

/-- C7: `suggest_template` resolves `"fix"` and `"bug"` to the same template
filename (`bug.md`), and any category whose lowercase form is absent from
`TYPE_MAPPING` to the default `feature.md` template. -/
theorem suggest_template_category_resolution (store : String → Option String)
    (cB cF cD cR cT cP cS : String)
    (h1 : store "bug.md" = some cB) (h2 : store "feature.md" = some cF)
    (h3 : store "docs.md" = some cD) (h4 : store "refactor.md" = some cR)
    (h5 : store "test.md" = some cT) (h6 : store "performance.md" = some cP)
    (h7 : store "security.md" = some cS)
    (s : String) :
    recommendedFilename (suggest_template store s "fix") = some (.str "bug.md")
    ∧ recommendedFilename (suggest_template store s "bug") = some (.str "bug.md")
    ∧ ∀ ct : String, assocGet TYPE_MAPPING (pyLower ct) = none →
        recommendedFilename (suggest_template store s ct)
          = some (.str "feature.md") := by
  have hcat : get_pr_templates store
      = .ok ⟨.arr (catalogRecords cB cF cD cR cT cP cS), some 2⟩ := by
    simp [get_pr_templates,
          readTemplates_eq store cB cF cD cR cT cP cS h1 h2 h3 h4 h5 h6 h7]
  have hfix : (assocGet TYPE_MAPPING (pyLower "fix")).getD "feature.md"
      = "bug.md" := by decide
  have hbug : (assocGet TYPE_MAPPING (pyLower "bug")).getD "feature.md"
      = "bug.md" := by decide
  refine ⟨?_, ?_, ?_⟩
  · simp [suggest_template, hcat, catalogRecords, hfix, recommendedFilename,
          filenameIs, templateRecord, Json.lookup, lookupField, List.find?]
  · simp [suggest_template, hcat, catalogRecords, hbug, recommendedFilename,
          filenameIs, templateRecord, Json.lookup, lookupField, List.find?]
  · intro ct hct
    simp [suggest_template, hcat, catalogRecords, hct, recommendedFilename,
          filenameIs, templateRecord, Json.lookup, lookupField, List.find?]

/-- Witness for C7: concrete store, and the unknown category `"unknown-xyz"`. -/
theorem suggest_template_category_resolution_witness :
    assocGet TYPE_MAPPING (pyLower "unknown-xyz") = none
    ∧ recommendedFilename (suggest_template store0 "changed stuff" "fix")
      = some (.str "bug.md")
    ∧ recommendedFilename (suggest_template store0 "changed stuff" "unknown-xyz")
      = some (.str "feature.md") :=
  ⟨by decide,
   (suggest_template_category_resolution store0
      "# Template bug.md" "# Template feature.md" "# Template docs.md"
      "# Template refactor.md" "# Template test.md" "# Template performance.md"
      "# Template security.md" rfl rfl rfl rfl rfl rfl rfl "changed stuff").1,
   (suggest_template_category_resolution store0
      "# Template bug.md" "# Template feature.md" "# Template docs.md"
      "# Template refactor.md" "# Template test.md" "# Template performance.md"
      "# Template security.md" rfl rfl rfl rfl rfl rfl rfl "changed stuff").2.2
     "unknown-xyz" (by decide)⟩

/-- C8: the `reasoning` field of every `suggest_template` recommendation
contains the caller's `changes_summary` and `change_type` verbatim as
substrings. -/
theorem suggest_template_reasoning_verbatim (store : String → Option String)
    (cB cF cD cR cT cP cS : String)
    (h1 : store "bug.md" = some cB) (h2 : store "feature.md" = some cF)
    (h3 : store "docs.md" = some cD) (h4 : store "refactor.md" = some cR)
    (h5 : store "test.md" = some cT) (h6 : store "performance.md" = some cP)
    (h7 : store "security.md" = some cS)
    (s ct : String) :
    ∃ r : ToolResult, suggest_template store s ct = .ok r
      ∧ (∃ u v : String, r.value.lookup "reasoning" = some (.str (u ++ s ++ v)))
      ∧ (∃ u v : String, r.value.lookup "reasoning" = some (.str (u ++ ct ++ v))) := by
  have hcat : get_pr_templates store
      = .ok ⟨.arr (catalogRecords cB cF cD cR cT cP cS), some 2⟩ := by
    simp [get_pr_templates,
          readTemplates_eq store cB cF cD cR cT cP cS h1 h2 h3 h4 h5 h6 h7]
  simp only [suggest_template, hcat, catalogRecords]
  refine ⟨_, rfl, ⟨"Based on your analysis: " ++ squote,
      squote ++ ", this appears to be a " ++ ct ++ " change.", ?_⟩,
    ⟨"Based on your analysis: " ++ squote ++ s ++ squote
        ++ ", this appears to be a ", " change.", ?_⟩⟩ <;>
    simp [Json.lookup, lookupField, String.append_assoc]

/-- Witness for C8, on concrete inputs. -/
theorem suggest_template_reasoning_verbatim_witness :
    ∃ r : ToolResult,
      suggest_template store0 "adds a hello line" "fix" = .ok r
      ∧ (∃ u v : String, r.value.lookup "reasoning"
          = some (.str (u ++ "adds a hello line" ++ v)))
      ∧ (∃ u v : String, r.value.lookup "reasoning"
          = some (.str (u ++ "fix" ++ v))) :=
  suggest_template_reasoning_verbatim store0
    "# Template bug.md" "# Template feature.md" "# Template docs.md"
    "# Template refactor.md" "# Template test.md" "# Template performance.md"
    "# Template security.md" rfl rfl rfl rfl rfl rfl rfl
    "adds a hello line" "fix"
